import Mathlib

/-!
Shallow embedding of the Sneh Bharat medical-imaging extraction pipeline.

Source files embedded:
- src/extractors/metadata_extractor.py  (MetadataExtractor)
- src/extractors/ocr_report_extractor.py (OCRReportExtractor)
- src/extractors/pdf_extractor.py       (MedicalPDFExtractor)
- src/database.py                       (MedicalImageDatabase._parse_date)

Python dictionaries are modelled by the `Val` type below; environment
reads (file size, current time, OCR engine output, raster decoding) are
modelled as explicit parameters; a Python function that can raise is
modelled as returning `Option`/`Except` or is wrapped by the caller that
catches the exception.
-/

namespace SnehMed

/-- A Python value as it occurs in the extraction records: strings,
natural numbers, booleans, decimal numbers (modelled as rationals) and
ordered dictionaries. -/
inductive Val where
  | vStr  : String → Val
  | vNat  : Nat → Val
  | vBool : Bool → Val
  | vRat  : Rat → Val
  | vObj  : List (String × Val) → Val

/-- First binding of a key in an association list (Python dicts have no
duplicate keys; record builders below never produce duplicates). -/
def lookupField (k : String) : List (String × Val) → Option Val
  | [] => none
  | (k2, v) :: rest => if k2 = k then some v else lookupField k rest

/-- `d.get(k)` on a dictionary; `None` (here `none`) on anything else. -/
def Val.get (v : Val) (k : String) : Option Val :=
  match v with
  | .vObj fs => lookupField k fs
  | _ => none

/-- `d.get(k, default)`. -/
def Val.getD (v : Val) (k : String) (d : Val) : Val :=
  (v.get k).getD d

/-- `k in d` for a dictionary. -/
def Val.hasKey (v : Val) (k : String) : Bool :=
  (v.get k).isSome

/-- Python truthiness of a value (empty dict/string and zero are falsy). -/
def Val.truthy : Val → Bool
  | .vStr s => s ≠ ""
  | .vNat n => n ≠ 0
  | .vBool b => b
  | .vRat q => q ≠ 0
  | .vObj fs => !fs.isEmpty

/-- The empty dictionary. -/
def emptyObj : Val := .vObj []

/-- `d.get(k, '')` where the stored value is a string; non-string values
do not occur at the keys this is used on. -/
def Val.getStrD (v : Val) (k : String) (d : String) : String :=
  match v.get k with
  | some (.vStr s) => s
  | _ => d

/-- Python `\s` on ASCII text (space, tab, newline, carriage return,
vertical tab, form feed). -/
def isPySpace (c : Char) : Bool :=
  c = ' ' ∨ c = '\t' ∨ c = '\n' ∨ c = '\r' ∨ c = Char.ofNat 11 ∨ c = Char.ofNat 12

/-- `str.strip()`: remove leading and trailing whitespace. -/
def pyStrip (s : String) : String :=
  String.mk (((s.data.dropWhile isPySpace).reverse.dropWhile isPySpace).reverse)

/-- `str.lower()` (ASCII, which is all the inputs use). -/
def lowerStr (s : String) : String := String.mk (s.data.map Char.toLower)

/-- `str.upper()` (ASCII). -/
def upperStr (s : String) : String := String.mk (s.data.map Char.toUpper)

/-- ASCII digit test (`str.isdigit` on the ASCII inputs handled here). -/
def isAsciiDigit (c : Char) : Bool := '0' ≤ c ∧ c ≤ '9'

/-- `s.isdigit()`: non-empty and all digits. -/
def pyIsDigitStr (s : String) : Bool :=
  s ≠ "" ∧ s.data.all isAsciiDigit

/-- Numeric value of a digit character. -/
def dval (c : Char) : Nat := c.toNat - 48

/-- Numeric value of a digit string. -/
def digitsVal (cs : List Char) : Nat :=
  cs.foldl (fun a c => a * 10 + dval c) 0

/-! ## MedicalImageDatabase._parse_date (src/database.py lines 643-676) -/

/-- Gregorian leap year, as used by Python `datetime`. -/
def isLeap (y : Nat) : Bool :=
  y % 4 = 0 ∧ (y % 100 ≠ 0 ∨ y % 400 = 0)

/-- Days in a month of a given year (Python `datetime` calendar). -/
def daysInMonth (m y : Nat) : Nat :=
  if m = 2 then (if isLeap y then 29 else 28)
  else if m = 4 ∨ m = 6 ∨ m = 9 ∨ m = 11 then 30
  else 31

/-- Validity of `datetime(year, month, day)` (`ValueError` otherwise). -/
def dmyValid (d m y : Nat) : Bool :=
  1 ≤ y ∧ y ≤ 9999 ∧ 1 ≤ m ∧ m ≤ 12 ∧ 1 ≤ d ∧ d ≤ daysInMonth m y

/-- Zero-padded two-digit decimal. -/
def pad2 (n : Nat) : String :=
  if n < 10 then "0" ++ toString n else toString n

/-- Zero-padded four-digit decimal. -/
def pad4 (n : Nat) : String :=
  if n < 10 then "000" ++ toString n
  else if n < 100 then "00" ++ toString n
  else if n < 1000 then "0" ++ toString n
  else toString n

/-- `strftime("%Y-%m-%d")`. -/
def isoOf (d m y : Nat) : String :=
  pad4 y ++ "-" ++ pad2 m ++ "-" ++ pad2 d

/-- `strptime` directive `%d`/`%m`: one or two digits within a range,
greedy two-digit attempt first, falling back to one digit when the
continuation fails (mirrors the regex alternations CPython compiles). -/
def matchNum2Then (lo hi : Nat) (cs : List Char) (k : Nat → List Char → Option α) : Option α :=
  match cs with
  | c1 :: c2 :: rest =>
      let two :=
        if isAsciiDigit c1 ∧ isAsciiDigit c2 ∧
           lo ≤ dval c1 * 10 + dval c2 ∧ dval c1 * 10 + dval c2 ≤ hi then
          k (dval c1 * 10 + dval c2) rest
        else none
      match two with
      | some r => some r
      | none =>
          if isAsciiDigit c1 ∧ lo ≤ dval c1 ∧ dval c1 ≤ hi then
            k (dval c1) (c2 :: rest)
          else none
  | [c1] =>
      if isAsciiDigit c1 ∧ lo ≤ dval c1 ∧ dval c1 ≤ hi then k (dval c1) [] else none
  | [] => none

/-- `strptime` directive `%Y`: exactly four digits. -/
def matchYear4 (cs : List Char) (k : Nat → List Char → Option α) : Option α :=
  match cs with
  | a :: b :: c :: d :: rest =>
      if isAsciiDigit a ∧ isAsciiDigit b ∧ isAsciiDigit c ∧ isAsciiDigit d then
        k (digitsVal [a, b, c, d]) rest
      else none
  | _ => none

/-- Month abbreviation table for `%b` (C locale), matched case-insensitively. -/
def monthAbbrevTable : List (String × Nat) :=
  [("jan", 1), ("feb", 2), ("mar", 3), ("apr", 4), ("may", 5), ("jun", 6),
   ("jul", 7), ("aug", 8), ("sep", 9), ("oct", 10), ("nov", 11), ("dec", 12)]

/-- Generic association-list lookup for non-`Val` tables. -/
def assocLookup (k : String) : List (String × Nat) → Option Nat
  | [] => none
  | (k2, v) :: rest => if k2 = k then some v else assocLookup k rest

/-- `strptime` directive `%b`: a three-letter month abbreviation,
case-insensitive. -/
def matchAbbrevThen (cs : List Char) (k : Nat → List Char → Option α) : Option α :=
  match cs with
  | a :: b :: c :: rest =>
      match assocLookup (String.mk [a.toLower, b.toLower, c.toLower]) monthAbbrevTable with
      | some m => k m rest
      | none => none
  | _ => none

/-- A single literal character of a `strptime` format. -/
def matchLitThen (lc : Char) (cs : List Char) (k : List Char → Option α) : Option α :=
  match cs with
  | c :: rest => if c = lc then k rest else none
  | [] => none

/-- One-or-more whitespace (a space in a `strptime` format). -/
def matchWsThen (cs : List Char) (k : List Char → Option α) : Option α :=
  match cs with
  | c :: rest => if isPySpace c then k (rest.dropWhile isPySpace) else none
  | [] => none

/-- `strptime(s, "%d<sep>%m<sep>%Y")`, whole string. -/
def pDMY (sep : Char) (cs : List Char) : Option (Nat × Nat × Nat) :=
  matchNum2Then 1 31 cs fun d r =>
  matchLitThen sep r fun r2 =>
  matchNum2Then 1 12 r2 fun m r3 =>
  matchLitThen sep r3 fun r4 =>
  matchYear4 r4 fun y r5 =>
  if r5 = [] then some (d, m, y) else none

/-- `strptime(s, "%m<sep>%d<sep>%Y")`, whole string. -/
def pMDY (sep : Char) (cs : List Char) : Option (Nat × Nat × Nat) :=
  matchNum2Then 1 12 cs fun m r =>
  matchLitThen sep r fun r2 =>
  matchNum2Then 1 31 r2 fun d r3 =>
  matchLitThen sep r3 fun r4 =>
  matchYear4 r4 fun y r5 =>
  if r5 = [] then some (d, m, y) else none

/-- `strptime(s, "%d<sep>%b<sep>%Y")`, whole string. -/
def pDbY (sep : Char) (cs : List Char) : Option (Nat × Nat × Nat) :=
  matchNum2Then 1 31 cs fun d r =>
  matchLitThen sep r fun r2 =>
  matchAbbrevThen r2 fun m r3 =>
  matchLitThen sep r3 fun r4 =>
  matchYear4 r4 fun y r5 =>
  if r5 = [] then some (d, m, y) else none

/-- `strptime(s, "%b %d, %Y")`, whole string. -/
def pBdY (cs : List Char) : Option (Nat × Nat × Nat) :=
  matchAbbrevThen cs fun m r =>
  matchWsThen r fun r2 =>
  matchNum2Then 1 31 r2 fun d r3 =>
  matchLitThen ',' r3 fun r4 =>
  matchWsThen r4 fun r5 =>
  matchYear4 r5 fun y r6 =>
  if r6 = [] then some (d, m, y) else none

/-- One `strptime` attempt of the `_parse_date` loop: a shape match whose
calendar date is invalid raises `ValueError`, which the loop catches and
moves on (`next`). -/
def tryFmt (p : List Char → Option (Nat × Nat × Nat)) (cs : List Char)
    (next : Option String) : Option String :=
  match p cs with
  | some (d, m, y) => if dmyValid d m y then some (isoOf d m y) else next
  | none => next

/-- The `formats` loop of `_parse_date`, in source order. -/
def tryDateFormats (cs : List Char) : Option String :=
  tryFmt (pDbY '-') cs <|
  tryFmt (pDbY '/') cs <|
  tryFmt (pDMY '-') cs <|
  tryFmt (pDMY '/') cs <|
  tryFmt (pMDY '-') cs <|
  tryFmt (pMDY '/') cs <|
  tryFmt pBdY cs none

/-- `re.match(r"^\d{4}-\d{2}-\d{2}$", s)` (the `$` also matches just
before a single trailing newline). -/
def matchIsoShape (cs : List Char) : Bool :=
  match cs with
  | [a, b, c, d, h1, e, f, h2, g, h] =>
      isAsciiDigit a ∧ isAsciiDigit b ∧ isAsciiDigit c ∧ isAsciiDigit d ∧
      h1 = '-' ∧ isAsciiDigit e ∧ isAsciiDigit f ∧ h2 = '-' ∧
      isAsciiDigit g ∧ isAsciiDigit h
  | [a, b, c, d, h1, e, f, h2, g, h, nl] =>
      isAsciiDigit a ∧ isAsciiDigit b ∧ isAsciiDigit c ∧ isAsciiDigit d ∧
      h1 = '-' ∧ isAsciiDigit e ∧ isAsciiDigit f ∧ h2 = '-' ∧
      isAsciiDigit g ∧ isAsciiDigit h ∧ nl = '\n'
  | _ => false

/-- `re.match(r"^\d{8}$", s)` (same trailing-newline tolerance). -/
def matchEightDigits (cs : List Char) : Bool :=
  match cs with
  | [a, b, c, d, e, f, g, h] =>
      [a, b, c, d, e, f, g, h].all isAsciiDigit
  | [a, b, c, d, e, f, g, h, nl] =>
      [a, b, c, d, e, f, g, h].all isAsciiDigit ∧ nl = '\n'
  | _ => false

/-- The DICOM-native branch: `f"{s[0:4]}-{s[4:6]}-{s[6:8]}"`. -/
def eightToIso (cs : List Char) : String :=
  String.mk (cs.take 4) ++ "-" ++ String.mk ((cs.drop 4).take 2) ++ "-" ++
    String.mk ((cs.drop 6).take 2)

/-- `MedicalImageDatabase._parse_date` (src/database.py lines 646-676):
sentinel check, already-ISO shape, DICOM `YYYYMMDD` shape, then the
`strptime` format loop; `None` when nothing matched. -/
def parse_date (s : String) : Option String :=
  if s = "" ∨ s = "N/A" ∨ s = "Not Available" then none
  else if matchIsoShape s.data then some s
  else if matchEightDigits s.data then some (eightToIso s.data)
  else tryDateFormats s.data

/-- Spec-side mirror of the set of inputs `_parse_date` recognizes:
either anchored regex shape or one of the seven `strptime` formats with
a valid calendar date. -/
def dateMatchesKnownFormat (s : String) : Bool :=
  matchIsoShape s.data || matchEightDigits s.data || (tryDateFormats s.data).isSome

/-! ## Hand-compiled regular-expression matchers

Every `re` pattern of the source is compiled by hand into a matcher over
`List Char`; `re.search` is the leftmost position at which the matcher
succeeds. All searched patterns carry `re.IGNORECASE`, so literals are
matched case-insensitively. `\w` is modelled over the ASCII range the
inputs use. -/

/-- Case-insensitive literal: the pattern is given lowercased. -/
def litCI : List Char → List Char → Option (List Char)
  | [], cs => some cs
  | p :: ps, c :: cs => if c.toLower = p then litCI ps cs else none
  | _ :: _, [] => none

/-- `\s*` (greedy; every use site is followed by a non-whitespace token). -/
def dropSpaces (cs : List Char) : List Char := cs.dropWhile isPySpace

/-- Python `\w` on ASCII input. -/
def isWordChar (c : Char) : Bool := c.isAlphanum ∨ c = '_'

/-- A case-insensitive literal, continuation style. -/
def mLitCI (p : String) (cs : List Char) (k : List Char → Option α) : Option α :=
  match litCI p.data cs with
  | some r => k r
  | none => none

/-- A one-character class such as `[I1]`, matched case-insensitively
(the allowed characters are given lowercased). -/
def mClass (allowed : List Char) (cs : List Char) (k : List Char → Option α) : Option α :=
  match cs with
  | c :: rest => if allowed.contains c.toLower then k rest else none
  | [] => none

/-- `\s*` in continuation style. -/
def mSpaces (cs : List Char) (k : List Char → Option α) : Option α := k (dropSpaces cs)

/-- A greedy one-or-more group `(<class>+)` capturing its text. -/
def mGroup1 (p : Char → Bool) (cs : List Char) (k : String → List Char → Option α) : Option α :=
  let g := cs.takeWhile p
  if g.isEmpty then none else k (String.mk g) (cs.drop g.length)

/-- An optional literal (`X?`): the greedy branch is tried first and the
match backtracks to the empty branch when the continuation fails. -/
def mOptLit (p : String) (cs : List Char) (k : List Char → Option α) : Option α :=
  match litCI p.data cs with
  | some r =>
      match k r with
      | some v => some v
      | none => k cs
  | none => k cs

/-- `[:\s]+` (greedy; every use site is followed by a token that is
neither a colon nor whitespace). -/
def mColonSpace1 (cs : List Char) (k : List Char → Option α) : Option α :=
  match cs with
  | c :: rest =>
      if c = ':' ∨ isPySpace c then
        k (rest.dropWhile (fun x => x = ':' ∨ isPySpace x))
      else none
  | [] => none

/-- `\s+` in continuation style, remembering the matched characters. -/
def mWs1 (cs : List Char) (k : List Char → List Char → Option α) : Option α :=
  let g := cs.takeWhile isPySpace
  if g.isEmpty then none else k g (cs.drop g.length)

/-- A bounded digit run `\d{lo,hi}` with greedy backtracking against the
continuation, as the compiled regex behaves. -/
def mDigitsTry (lo : Nat) (cs : List Char) (k : List Char → List Char → Option α) :
    Nat → Option α
  | 0 => none
  | Nat.succ nm1 =>
      let n := Nat.succ nm1
      let attempt :=
        if lo ≤ n ∧ (cs.take n).length = n ∧ (cs.take n).all isAsciiDigit then
          k (cs.take n) (cs.drop n)
        else none
      match attempt with
      | some v => some v
      | none => mDigitsTry lo cs k nm1

/-- `re.search`: try the matcher at every position, leftmost first (the
empty position at the end of the text is also tried). -/
def searchFrom (m : List Char → Option α) : List Char → Option α
  | [] => m []
  | c :: rest =>
      match m (c :: rest) with
      | some r => some r
      | none => searchFrom m rest

/-- `re.search` on a string. -/
def searchPat (m : List Char → Option α) (s : String) : Option α := searchFrom m s.data

/-- Substring containment (Python `needle in hay`). -/
def startsWithChars : List Char → List Char → Bool
  | [], _ => true
  | _ :: _, [] => false
  | p :: ps, c :: cs => p = c ∧ startsWithChars ps cs

/-- Substring containment (Python `needle in hay`), scanning positions. -/
def containsSub (needle : List Char) : List Char → Bool
  | [] => needle.isEmpty
  | c :: rest => startsWithChars needle (c :: rest) ∨ containsSub needle rest

/-! ## Measurement scanner
(`OCRReportExtractor._extract_measurements`, lines 324-340, and
`MedicalPDFExtractor._extract_measurements`, lines 211-219)

Both compile the pattern `(\d+\.?\d*)\s*(<unit alternation>)` with
`re.IGNORECASE` and walk it with `re.finditer`. The digit run, the
optional dot and the whitespace are greedy and never need to backtrack
(no unit starts with a digit, a dot or whitespace), and the alternation
is tried left to right, so a hand-rolled deterministic scan is exact. -/

/-- One number-with-unit match. -/
structure RawMeas where
  num : String
  unitText : String
  deriving Repr, DecidableEq

/-- Split a leading digit run. -/
def spanDigits (cs : List Char) : List Char × List Char :=
  (cs.takeWhile isAsciiDigit, cs.dropWhile isAsciiDigit)

/-- Try the unit alternation in source order, case-insensitively,
capturing the original (not lowercased) slice of the text. -/
def matchUnitAt : List String → List Char → Option (String × List Char)
  | [], _ => none
  | u :: rest, cs =>
      match litCI (lowerStr u).data cs with
      | some r => some (String.mk (cs.take u.length), r)
      | none => matchUnitAt rest cs

/-- Match `(\d+\.?\d*)\s*(<unit>)` at the current position. -/
def matchMeasAt (units : List String) (cs : List Char) : Option (RawMeas × List Char) :=
  let (ds, r1) := spanDigits cs
  if ds.isEmpty then none
  else
    let (numCs, r2) :=
      match r1 with
      | '.' :: rest =>
          let (fs, rr) := spanDigits rest
          (ds ++ '.' :: fs, rr)
      | _ => (ds, r1)
    let r3 := dropSpaces r2
    match matchUnitAt units r3 with
    | some (u, rest) => some ({num := String.mk numCs, unitText := u}, rest)
    | none => none

/-- `re.finditer`: non-overlapping leftmost matches; on failure advance
one character. Fuel is the length of the text, which suffices because a
match always consumes at least its digit. -/
def scanMeasAux (units : List String) : Nat → List Char → List RawMeas
  | 0, _ => []
  | _, [] => []
  | Nat.succ f, c :: rest =>
      match matchMeasAt units (c :: rest) with
      | some (m, r) => m :: scanMeasAux units f r
      | none => scanMeasAux units f rest

/-- All matches of the measurement pattern in document order. -/
def scanMeas (units : List String) (s : String) : List RawMeas :=
  scanMeasAux units s.data.length s.data

/-- Unit alternation of the image-OCR path, in source order. -/
def ocrUnits : List String :=
  ["mm", "cm", "ml", "HU", "mg", "kg", "L", "l", "cc", "mmHg", "%", "mL"]

/-- Unit alternation of the PDF path, in source order. -/
def pdfUnits : List String := ["mm", "cm", "ml", "HU", "mg", "kg", "L", "cc"]

/-- `float()` of a decimal literal `\d+\.?\d*`, as an exact rational. -/
def parseDecimalRat (s : String) : Rat :=
  match s.data.span (fun c => c ≠ '.') with
  | (ip, []) => (digitsVal ip : Rat)
  | (ip, _ :: fp) => (digitsVal ip : Rat) + (digitsVal fp : Rat) / ((10 : Rat) ^ fp.length)

/-- `OCRReportExtractor._extract_measurements` as an entry list: keys
`measurement_{i+1}` over the enumerated matches, unit lowercased. -/
def ocrMeasEntries (s : String) : List (String × Val) :=
  (scanMeas ocrUnits s).enum.map fun q =>
    ("measurement_" ++ toString (q.1 + 1),
     Val.vObj [("value", .vRat (parseDecimalRat q.2.num)),
               ("unit", .vStr (lowerStr q.2.unitText))])

/-- `OCRReportExtractor._extract_measurements`. -/
def ocr_extract_measurements (s : String) : Val := .vObj (ocrMeasEntries s)

/-- `MedicalPDFExtractor._extract_measurements` as an entry list: keys
`measurement_{i+1}`, unit kept exactly as matched (no lowercasing). -/
def pdfMeasEntries (s : String) : List (String × Val) :=
  (scanMeas pdfUnits s).enum.map fun q =>
    ("measurement_" ++ toString (q.1 + 1),
     Val.vObj [("value", .vRat (parseDecimalRat q.2.num)), ("unit", .vStr q.2.unitText)])

/-- `MedicalPDFExtractor._extract_measurements`. -/
def pdf_extract_measurements (s : String) : Val := .vObj (pdfMeasEntries s)

/-! ## Patient-id patterns of `OCRReportExtractor._extract_patient_info`
(lines 124-143). The five `pid_patterns`, their first-match-wins loop and
the numeric OPD-prefix post-processing. -/

/-- `Patient\s*[I1]D\s*:\s*0?PD(\d+)`. -/
def pidPat1At (cs : List Char) : Option String :=
  mLitCI "patient" cs fun r =>
  mSpaces r fun r =>
  mClass ['i', '1'] r fun r =>
  mLitCI "d" r fun r =>
  mSpaces r fun r =>
  mLitCI ":" r fun r =>
  mSpaces r fun r =>
  mOptLit "0" r fun r =>
  mLitCI "pd" r fun r =>
  mGroup1 isAsciiDigit r fun g _ => some g

/-- `Patient\s*[I1]D\s*:\s*([\w-]+)`. -/
def pidPat2At (cs : List Char) : Option String :=
  mLitCI "patient" cs fun r =>
  mSpaces r fun r =>
  mClass ['i', '1'] r fun r =>
  mLitCI "d" r fun r =>
  mSpaces r fun r =>
  mLitCI ":" r fun r =>
  mSpaces r fun r =>
  mGroup1 (fun c => isWordChar c ∨ c = '-') r fun g _ => some g

/-- `UHID\s*:\s*([\w-]+)`. -/
def pidPat3At (cs : List Char) : Option String :=
  mLitCI "uhid" cs fun r =>
  mSpaces r fun r =>
  mLitCI ":" r fun r =>
  mSpaces r fun r =>
  mGroup1 (fun c => isWordChar c ∨ c = '-') r fun g _ => some g

/-- `Reg\.?\s*No\.?\s*:\s*([\w-]+)`. -/
def pidPat4At (cs : List Char) : Option String :=
  mLitCI "reg" cs fun r =>
  mOptLit "." r fun r =>
  mSpaces r fun r =>
  mLitCI "no" r fun r =>
  mOptLit "." r fun r =>
  mSpaces r fun r =>
  mLitCI ":" r fun r =>
  mSpaces r fun r =>
  mGroup1 (fun c => isWordChar c ∨ c = '-') r fun g _ => some g

/-- `[I1]D\s*:\s*0?PD(\d+)`. -/
def pidPat5At (cs : List Char) : Option String :=
  mClass ['i', '1'] cs fun r =>
  mLitCI "d" r fun r =>
  mSpaces r fun r =>
  mLitCI ":" r fun r =>
  mSpaces r fun r =>
  mOptLit "0" r fun r =>
  mLitCI "pd" r fun r =>
  mGroup1 isAsciiDigit r fun g _ => some g

/-- The `pid_patterns` loop: each pattern is `re.search`ed over the whole
text in order; the first pattern with a match wins. -/
def firstPidRaw (s : String) : Option String :=
  searchPat pidPat1At s <|> searchPat pidPat2At s <|> searchPat pidPat3At s <|>
  searchPat pidPat4At s <|> searchPat pidPat5At s

/-- `pid.replace("_", "")`: removing every underscore. -/
def stripUnderscores (s : String) : String :=
  String.mk (s.data.filter (fun c => c ≠ '_'))

/-- `pid.replace("_", "").strip()` followed by the OPD-prefix rule. -/
def pidPostprocess (raw : String) : String :=
  let p := pyStrip (stripUnderscores raw)
  if pyIsDigitStr p ∧ p.length > 6 then "OPD" ++ p else p

/-- The `patient_id` field computed by
`OCRReportExtractor._extract_patient_info` (absent when no pattern
matches). -/
def ocrExtractPatientId (s : String) : Option String :=
  (firstPidRaw s).map pidPostprocess

/-! ## `OCRReportExtractor._run_ocr` (lines 64-113)

The three preprocessing strategies and the two direct
`pytesseract.image_to_string(img)` calls (the `results == []` branch and
the outer exception handler) are external recognition oracles, each
modelled as `Option String` (`none` = the call raised). The grayscale
conversion shared by strategies 2 and 3 operates on an image the caller
has already checked to be a validly decoded 3-channel array and is
modelled as non-raising. -/

/-- The `results` list: values of the strategies that did not raise, in
strategy order (a strategy returning the empty string still contributes). -/
def strategyResults (m1 m2 m3 : Option String) : List String :=
  m1.toList ++ m2.toList ++ m3.toList

/-- Python `max(xs, key=len)` starting from a first candidate: later
elements replace the accumulator only when strictly longer, so the first
longest element wins. -/
def maxByLen (acc : String) : List String → String
  | [] => acc
  | s :: rest => maxByLen (if s.length > acc.length then s else acc) rest

/-- `OCRReportExtractor._run_ocr`: if any strategy returned, the longest
result is taken (ties to the earliest); otherwise the direct attempt is
returned, its own failure being retried once by the outer handler before
degrading to the empty string. -/
def run_ocr (m1 m2 m3 direct1 direct2 : Option String) : String :=
  match strategyResults m1 m2 m3 with
  | r :: rs => maxByLen r rs
  | [] =>
      match direct1 with
      | some t => t
      | none =>
          match direct2 with
          | some t => t
          | none => ""

/-! ## Temporary rasterization files of `MedicalPDFExtractor._extract_via_ocr`
(lines 91-96)

Per page, `tempfile.NamedTemporaryFile(suffix=".png", delete=False)`
creates the raster file on disk unconditionally; `image.save` may raise
(modelled by `saveOk`); `extract_from_image` converts its own exceptions
to error values and never raises; `os.remove(tmp.name)` runs only when
control reaches it. -/

/-- One loop iteration of the PDF OCR route, seen from the temp-file side. -/
structure PageStep where
  saveOk : Bool
  deriving Repr, DecidableEq

/-- Runs the per-page loop and reports `(completed normally, temp files
left on disk when the call exits)`; a raising save aborts the loop with
its already-created temp file never removed. -/
def runPdfOcrLoop : List PageStep → Bool × Nat
  | [] => (true, 0)
  | p :: rest => if p.saveOk then runPdfOcrLoop rest else (false, 1)

/-! ## Field parsers of `MedicalPDFExtractor` (lines 138-219) -/

/-- The capture group `([A-Z][A-Z\s]+)` under `re.IGNORECASE` (a letter
followed by one or more letters/whitespace, greedy). -/
def mNameGroup (cs : List Char) (k : String → List Char → Option α) : Option α :=
  match cs with
  | c :: rest =>
      if c.isAlpha then
        let tl := rest.takeWhile (fun x => x.isAlpha ∨ isPySpace x)
        if tl.isEmpty then none else k (String.mk (c :: tl)) (rest.drop tl.length)
      else none
  | [] => none

/-- `Patient\s*[I1]D[:\s]+([\w-]+)`. -/
def pdfPid1At (cs : List Char) : Option String :=
  mLitCI "patient" cs fun r =>
  mSpaces r fun r =>
  mClass ['i', '1'] r fun r =>
  mLitCI "d" r fun r =>
  mColonSpace1 r fun r =>
  mGroup1 (fun c => isWordChar c ∨ c = '-') r fun g _ => some g

/-- `UHID[:\s]+([\w-]+)`. -/
def pdfPid2At (cs : List Char) : Option String :=
  mLitCI "uhid" cs fun r =>
  mColonSpace1 r fun r =>
  mGroup1 (fun c => isWordChar c ∨ c = '-') r fun g _ => some g

/-- `Reg\.?\s*No\.?[:\s]+([\w-]+)`. -/
def pdfPid3At (cs : List Char) : Option String :=
  mLitCI "reg" cs fun r =>
  mOptLit "." r fun r =>
  mSpaces r fun r =>
  mLitCI "no" r fun r =>
  mOptLit "." r fun r =>
  mColonSpace1 r fun r =>
  mGroup1 (fun c => isWordChar c ∨ c = '-') r fun g _ => some g

/-- `Patient\s*(?:Name|Namo)[:\s]+([A-Z][A-Z\s]+)`. -/
def pdfName1At (cs : List Char) : Option String :=
  mLitCI "patient" cs fun r =>
  mSpaces r fun r =>
  (mLitCI "name" r fun r2 => mColonSpace1 r2 fun r3 => mNameGroup r3 fun g _ => some g) <|>
  (mLitCI "namo" r fun r2 => mColonSpace1 r2 fun r3 => mNameGroup r3 fun g _ => some g)

/-- `(?:Name|Namo)[:\s]+([A-Z][A-Z\s]+)`. -/
def pdfName2At (cs : List Char) : Option String :=
  (mLitCI "name" cs fun r => mColonSpace1 r fun r2 => mNameGroup r2 fun g _ => some g) <|>
  (mLitCI "namo" cs fun r => mColonSpace1 r fun r2 => mNameGroup r2 fun g _ => some g)

/-- `Age[:\s]+(\d+)`. -/
def pdfAge1At (cs : List Char) : Option String :=
  mLitCI "age" cs fun r =>
  mColonSpace1 r fun r =>
  mGroup1 isAsciiDigit r fun g _ => some g

/-- `(\d+)\s*[Yy]`. -/
def pdfAge2At (cs : List Char) : Option String :=
  mGroup1 isAsciiDigit cs fun g r =>
  mSpaces r fun r =>
  mClass ['y'] r fun _ => some g

/-- `Sex[:\s]+(Male|Female|M|F)`; only the M/F normalization of the
captured value is observable downstream. -/
def pdfSex1At (cs : List Char) : Option String :=
  mLitCI "sex" cs fun r =>
  mColonSpace1 r fun r =>
  (mLitCI "male" r fun _ => some "M") <|>
  (mLitCI "female" r fun _ => some "F") <|>
  (mClass ['m'] r fun _ => some "M") <|>
  (mClass ['f'] r fun _ => some "F")

/-- `\d+\s*[Yy]\s*(M|F)` with the same M/F normalization. -/
def pdfSex2At (cs : List Char) : Option String :=
  mGroup1 isAsciiDigit cs fun _ r =>
  mSpaces r fun r =>
  mClass ['y'] r fun r =>
  mSpaces r fun r =>
  (mClass ['m'] r fun _ => some "M") <|> (mClass ['f'] r fun _ => some "F")

/-- An optional field entry (`info[key] = val` when a pattern matched,
nothing otherwise); the PDF loop strips every captured value. -/
def optField (k : String) (v : Option String) : List (String × Val) :=
  match v with
  | some x => [(k, Val.vStr (pyStrip x))]
  | none => []

/-- `MedicalPDFExtractor._extract_patient_info`: per-field first-match-wins
pattern lists, fields in the insertion order of the `patterns` dict. -/
def pdf_extract_patient_info (s : String) : Val :=
  .vObj (
    optField "patient_id"
      (searchPat pdfPid1At s <|> searchPat pdfPid2At s <|> searchPat pdfPid3At s) ++
    optField "patient_name" (searchPat pdfName1At s <|> searchPat pdfName2At s) ++
    optField "patient_age" (searchPat pdfAge1At s <|> searchPat pdfAge2At s) ++
    optField "patient_sex" (searchPat pdfSex1At s <|> searchPat pdfSex2At s))

/-- `(?:Report\s*Date|Date)[:\s]+(\d{1,2}<sep>\d{1,2}<sep>\d{2,4})`
where `<sep>` is the class of a dash or a forward slash. -/
def pdfDate1At (cs : List Char) : Option String :=
  let afterLabel : Option (List Char) :=
    (mLitCI "report" cs fun r => mSpaces r fun r => mLitCI "date" r fun r => some r) <|>
    (mLitCI "date" cs fun r => some r)
  afterLabel.bind fun r =>
  mColonSpace1 r fun r =>
  mDigitsTry 1 r (fun d1 r2 =>
    mClass ['-', '/'] r2 fun r3 =>
    match r2 with
    | s1 :: _ =>
      mDigitsTry 1 r3 (fun d2 r4 =>
        mClass ['-', '/'] r4 fun r5 =>
        match r4 with
        | s2 :: _ =>
          mDigitsTry 2 r5 (fun d3 _ =>
            some (String.mk (d1 ++ s1 :: d2 ++ s2 :: d3))) 4
        | [] => none) 2
    | [] => none) 2

/-- `(\d{1,2}\s+(?:Jan|Feb|Mar|Apr|May|Jun|Jul|Aug|Sep|Oct|Nov|Dec)[a-z]*\s+\d{4})`. -/
def pdfDate2At (cs : List Char) : Option String :=
  mDigitsTry 1 cs (fun d1 r =>
    mWs1 r fun w1 r2 =>
    match r2 with
    | a :: b :: c :: r3 =>
        match assocLookup (String.mk [a.toLower, b.toLower, c.toLower]) monthAbbrevTable with
        | some _ =>
            let letters := r3.takeWhile Char.isAlpha
            let r4 := r3.drop letters.length
            mWs1 r4 fun w2 r5 =>
            mDigitsTry 4 r5 (fun y _ =>
              some (String.mk (d1 ++ w1 ++ a :: b :: c :: letters ++ w2 ++ y))) 4
        | none => none
    | _ => none) 2

/-- The `modalities` containment loop of
`MedicalPDFExtractor._extract_report_info` (first hit in list order,
searched in the uppercased text). -/
def pdfModality (s : String) : Option String :=
  ["CT", "MRI", "X-RAY", "XRAY", "ULTRASOUND", "USG"].find?
    (fun m => containsSub m.data (upperStr s).data)

/-- `MedicalPDFExtractor._extract_report_info`. -/
def pdf_extract_report_info (s : String) : Val :=
  .vObj (
    (match searchPat pdfDate1At s <|> searchPat pdfDate2At s with
     | some d => [("report_date", Val.vStr d)]
     | none => []) ++
    (match pdfModality s with
     | some m => [("modality", Val.vStr m)]
     | none => []))

/-- One alternative of a clinical-section label. -/
def labelAlt (base : String) (optTail : String) (cs : List Char) : Option (List Char) :=
  match litCI base.data cs with
  | some r =>
      if optTail = "" then some r
      else
        match litCI optTail.data r with
        | some r2 => some r2
        | none => some r
  | none => none

/-- The lazy `(.+?)` with lookahead `(?=<stop words>|$)` under
`re.DOTALL`: capture grows one character at a time until a stop word
matches at the current point, until the text ends, or until only a final
newline remains (`$`). Needs at least one character. -/
def lazyCaptureAux (stops : List String) (acc : List Char) : List Char → Option (List Char)
  | [] => if acc.isEmpty then none else some acc.reverse
  | c :: rest =>
      if !acc.isEmpty ∧
         (stops.any (fun w => (litCI (lowerStr w).data (c :: rest)).isSome) ∨
          (rest.isEmpty ∧ c = '\n')) then
        some acc.reverse
      else lazyCaptureAux stops (c :: acc) rest

/-- The lazy capture from the start of the remainder. -/
def lazyCapture (stops : List String) (cs : List Char) : Option String :=
  (lazyCaptureAux stops [] cs).map String.mk

/-- A clinical-section pattern `<label>[:\s]+(.+?)(?=<stops>|$)`:
greedy `[:\s]+` backtracks exactly one character when it would otherwise
swallow the whole remainder and leave `(.+?)` nothing to match. -/
def sectionCapture (labels : List (String × String)) (stops : List String)
    (cs : List Char) : Option String :=
  let afterLabel := labels.foldl
    (fun acc lb => match acc with
      | some r => some r
      | none => labelAlt lb.1 lb.2 cs) none
  afterLabel.bind fun r =>
  match r with
  | c :: rest =>
      if c = ':' ∨ isPySpace c then
        let run := (c :: rest).takeWhile (fun x => x = ':' ∨ isPySpace x)
        let after := (c :: rest).drop run.length
        match lazyCapture stops after with
        | some g => some g
        | none =>
            if run.length ≥ 2 then
              lazyCapture stops ((c :: rest).drop (run.length - 1))
            else none
      else none
  | [] => none

/-- `MedicalPDFExtractor._extract_clinical_data`: the three section
patterns, each searched over the whole text, captured group stripped. -/
def pdf_extract_clinical_data (s : String) : Val :=
  .vObj (
    optField "findings"
      (searchPat (sectionCapture [("findings", ""), ("observation", "s")]
        ["impression", "conclusion", "advice"]) s) ++
    optField "impression"
      (searchPat (sectionCapture [("impression", ""), ("conclusion", ""), ("diagnosis", "")]
        ["advice"]) s) ++
    optField "recommendations"
      (searchPat (sectionCapture [("advice", ""), ("recommendation", "")] []) s))

/-! ## `MedicalPDFExtractor.extract` and `_extract_via_ocr` (lines 41-119)

The embedded text recovered by PyPDF2 (`_extract_text_from_pdf`, which
catches its own exceptions and degrades to the empty string) and the
per-page `extract_from_image` results of the OCR route are inputs;
`datetime.now()` is the `now` parameter. -/

/-- `page_result.get("raw_text", "")` (always a string when present). -/
def pageRawText (p : Val) : String := p.getStrD "raw_text" ""

/-- The combined text of the OCR route: page banners around each page
text, in page order. -/
def combinedPageText (pages : List Val) : String :=
  pages.enum.foldl
    (fun acc q => acc ++ "\n--- Page " ++ toString (q.1 + 1) ++ " ---\n" ++ pageRawText q.2 ++ "\n")
    ""

/-- `MedicalPDFExtractor._extract_via_ocr` under normal execution:
`final_result` is the first page result (the empty dict when there are
no pages); only it populates the structured sections. -/
def pdf_extract_via_ocr (fileInfo : Val) (hasOcrExtractor : Bool)
    (pages : List Val) (now : String) : Val :=
  if hasOcrExtractor then
    .vObj [
      ("file_info", fileInfo),
      ("source_type", .vStr "ocr_pdf"),
      ("extraction_method", .vStr "ocr"),
      ("processing_info", .vObj [
        ("extracted_at", .vStr now),
        ("method", .vStr "pdf_to_image_ocr")]),
      ("raw_text", .vStr (combinedPageText pages)),
      ("patient_information", (pages.headD emptyObj).getD "patient_info" emptyObj),
      ("study_information", (pages.headD emptyObj).getD "report_info" emptyObj),
      ("clinical_information", (pages.headD emptyObj).getD "clinical_data" emptyObj),
      ("measurements", (pages.headD emptyObj).getD "measurements" emptyObj)
    ]
  else
    .vObj [
      ("file_info", fileInfo),
      ("error", .vStr "OCR extractor not available"),
      ("patient_information", emptyObj),
      ("study_information", emptyObj),
      ("clinical_information", emptyObj),
      ("measurements", emptyObj),
      ("raw_text", .vStr "")
    ]

/-- `MedicalPDFExtractor.extract`: route on the stripped embedded-text
length against `ocr_threshold`; the text route fills the pre-built
canonical dict (its keys in insertion order) with the field-parser
outputs. -/
def pdf_extract (fileInfo : Val) (use_ocr : Bool) (ocr_threshold : Nat)
    (hasOcrExtractor : Bool) (text : String) (pages : List Val) (now : String) : Val :=
  if (pyStrip text).length < ocr_threshold ∧ use_ocr then
    pdf_extract_via_ocr fileInfo hasOcrExtractor pages now
  else
    .vObj [
      ("file_info", fileInfo),
      ("patient_information", pdf_extract_patient_info text),
      ("study_information", pdf_extract_report_info text),
      ("clinical_information", pdf_extract_clinical_data text),
      ("measurements", pdf_extract_measurements text),
      ("raw_text", .vStr text),
      ("extraction_method", .vStr "text"),
      ("processing_info", .vObj [("extracted_at", .vStr now)])
    ]

/-! ## `MetadataExtractor` (src/extractors/metadata_extractor.py) -/

/-- `MetadataExtractor._normalize_ocr_result` (lines 167-206): remap the
producer-native keys onto the canonical sections with sentinel defaults,
keeping the raw producer output under `ocr_raw_result`. -/
def normalize_ocr_result (now : String) (r : Val) : Val :=
  let pi := r.getD "patient_info" emptyObj
  let ri := r.getD "report_info" emptyObj
  let cd := r.getD "clinical_data" emptyObj
  .vObj [
    ("file_info", r.getD "file_info" emptyObj),
    ("patient_information", .vObj [
      ("patient_name", pi.getD "patient_name" (.vStr "Unknown")),
      ("patient_id", pi.getD "patient_id" (.vStr "UNKNOWN")),
      ("patient_sex", pi.getD "patient_sex" (.vStr "N/A")),
      ("patient_age", pi.getD "patient_age" (.vStr "N/A"))]),
    ("study_information", .vObj [
      ("study_date", ri.getD "report_date" (.vStr "N/A")),
      ("study_description", ri.getD "study_type" (.vStr "N/A")),
      ("modality", ri.getD "modality" (.vStr "N/A")),
      ("report_type", ri.getD "report_type" (.vStr "N/A")),
      ("examination", ri.getD "examination" (.vStr "N/A"))]),
    ("clinical_information", .vObj [
      ("protocol", cd.getD "protocol" (.vStr "N/A")),
      ("clinical_brief", cd.getD "clinical_brief" (.vStr "N/A")),
      ("observations", cd.getD "observations" (.vStr "N/A")),
      ("impression", cd.getD "impression" (.vStr "N/A")),
      ("advice", cd.getD "advice" (.vStr "N/A"))]),
    ("processing_info", .vObj [
      ("extracted_at", .vStr now),
      ("extraction_method", .vStr "ocr"),
      ("text_length", (r.getD "processing_info" emptyObj).getD "text_length" (.vNat 0))]),
    ("raw_text", r.getD "raw_text" (.vStr "")),
    ("ocr_raw_result", r)
  ]

/-- `MetadataExtractor._fallback_with_context` (lines 134-163); the
re-opened image properties and the file info are environment inputs. -/
def fallback_with_context (fileInfo imageProps : Val) (now rawText : String) : Val :=
  .vObj [
    ("file_info", fileInfo),
    ("image_properties", imageProps),
    ("patient_information", .vObj [
      ("patient_name", .vStr "Unknown"),
      ("patient_id", .vStr "UNKNOWN")]),
    ("processing_info", .vObj [
      ("extracted_at", .vStr now),
      ("extraction_method", .vStr "basic_image_only"),
      ("ocr_ran", .vBool true),
      ("ocr_raw_text", .vStr rawText)])
  ]

/-- `MetadataExtractor.extract_medical_image` routing (lines 92-130):
normalize when the OCR result has no `error` key and a truthy
`patient_info`; otherwise fall back (case 2/3 share one shape). The OCR
result of `extract_from_image` is an input. -/
def extract_medical_image (ocrResult : Val) (fileInfo imageProps : Val) (now : String) : Val :=
  let rawText := ocrResult.getStrD "raw_text" ""
  if !ocrResult.hasKey "error" && ((ocrResult.get "patient_info").map Val.truthy).getD false then
    normalize_ocr_result now ocrResult
  else
    fallback_with_context fileInfo imageProps now rawText

/-- The DICOM tags `extract_dicom` reads, each possibly absent. -/
structure DicomTags where
  patientName : Option String
  patientID : Option String
  patientSex : Option String
  patientAge : Option String
  studyInstanceUID : Option String
  studyDate : Option String
  studyDescription : Option String
  modality : Option String
  rows : Option Nat
  columns : Option Nat
  windowCenter : Option String
  windowWidth : Option String

/-- `MetadataExtractor._format_dicom_date`. -/
def format_dicom_date (s : String) : String :=
  if s.length = 8 then
    String.mk (s.data.take 4) ++ "-" ++ String.mk ((s.data.drop 4).take 2) ++ "-" ++
      String.mk (s.data.drop 6)
  else s

/-- `MetadataExtractor.extract_dicom` (lines 37-71): direct tag reads
with the "N/A" (strings) and 0 (numbers) defaults; filename, rounded
file size, timestamp and the full tag dump are environment inputs. -/
def extract_dicom (filename : String) (fileSizeMB : Rat) (now : String)
    (ds : DicomTags) (allTags : Val) : Val :=
  .vObj [
    ("file_info", .vObj [
      ("filename", .vStr filename),
      ("file_size_mb", .vRat fileSizeMB),
      ("format", .vStr "DICOM")]),
    ("patient_information", .vObj [
      ("patient_name", .vStr (ds.patientName.getD "N/A")),
      ("patient_id", .vStr (ds.patientID.getD "N/A")),
      ("patient_sex", .vStr (ds.patientSex.getD "N/A")),
      ("patient_age", .vStr (ds.patientAge.getD "N/A"))]),
    ("study_information", .vObj [
      ("study_instance_uid", .vStr (ds.studyInstanceUID.getD "N/A")),
      ("study_date", .vStr (format_dicom_date (ds.studyDate.getD ""))),
      ("study_description", .vStr (ds.studyDescription.getD "N/A")),
      ("modality", .vStr (ds.modality.getD "N/A"))]),
    ("image_information", .vObj [
      ("rows", .vNat (ds.rows.getD 0)),
      ("columns", .vNat (ds.columns.getD 0)),
      ("window_center", .vStr (ds.windowCenter.getD "N/A")),
      ("window_width", .vStr (ds.windowWidth.getD "N/A"))]),
    ("processing_info", .vObj [
      ("extracted_at", .vStr now),
      ("extractor_version", .vStr "1.0")]),
    ("all_dicom_tags", allTags)
  ]

/-! ## `MetadataExtractor.extract` dispatch (lines 20-33) -/

/-- CPython `os.path.splitext` extension (the part from the last dot of
the basename, unless every basename character before that dot is a dot). -/
def lastIndexOfChar (c : Char) (l : List Char) : Option Nat :=
  match l.reverse.findIdx? (· = c) with
  | none => none
  | some i => some (l.length - 1 - i)

/-- Characters after the last path separator. -/
def baseNameChars (cs : List Char) : List Char :=
  match lastIndexOfChar '/' cs with
  | none => cs
  | some i => cs.drop (i + 1)

/-- `os.path.splitext(p)[1]`. -/
def splitextExtension (p : String) : String :=
  let b := baseNameChars p.data
  match lastIndexOfChar '.' b with
  | none => ""
  | some d => if (b.take d).any (fun c => c ≠ '.') then String.mk (b.drop d) else ""

/-- The structured-tag extensions. -/
def dicomExts : List String := [".dcm", ".dicom", ".dic"]

/-- The raster-image extensions. -/
def imageExts : List String := [".jpg", ".jpeg", ".png", ".tif", ".tiff"]

/-- `MetadataExtractor.extract`: lowercased-extension dispatch inside a
catch-all handler. Each branch extractor is an input of type
`Except String Val` (`error` = the branch raised, carrying `str(e)`);
the unsupported-extension branch raises nothing. -/
def metadata_extract (path : String) (dicomRes imageRes pdfRes : Except String Val) : Val :=
  let ext := lowerStr (splitextExtension path)
  let body : Except String Val :=
    if dicomExts.contains ext then dicomRes
    else if imageExts.contains ext then imageRes
    else if ext = ".pdf" then pdfRes
    else .ok (.vObj [("error", .vStr ("Unsupported file format: " ++ ext))])
  match body with
  | .ok v => v
  | .error e => .vObj [("error", .vStr ("Extraction failed: " ++ e))]

/-- Dictionary-ness of a value (`extract` always returns a dict). -/
def Val.isObj : Val → Bool
  | .vObj _ => true
  | _ => false

/-! ## Derived observations used by the claims -/

/-- The three sections the canonical-record invariant requires. -/
def hasSections (r : Val) : Bool :=
  r.hasKey "file_info" && r.hasKey "patient_information" && r.hasKey "processing_info"

/-- A field of a section of a record. -/
def sectionField (r : Val) (sec k : String) : Option Val :=
  (r.get sec).bind (fun s => s.get k)

/-- The canonical section keys of the data model. -/
def canonicalSectionKeys : List String :=
  ["file_info", "patient_information", "study_information",
   "clinical_information", "processing_info"]

/-- A record already in the canonical shape: it has every canonical
section key and its patient section is a mapping. -/
def isCanonicalShape (r : Val) : Bool :=
  canonicalSectionKeys.all (fun k => r.hasKey k) &&
  (match r.get "patient_information" with
   | some (.vObj _) => true
   | _ => false)

/-! # Theorems for the claims -/

/-- Claim C6: the storage-boundary date parser maps "20251122",
"22-Nov-2025" and "2025-11-22" all to the ISO date "2025-11-22", and
every input matching none of its known formats — including the
sentinels "N/A" and the empty string — yields `none` (the embedding is
total, so no exception can escape). -/
theorem claim_C6_parse_date_normalization :
    parse_date "20251122" = some "2025-11-22" ∧
    parse_date "22-Nov-2025" = some "2025-11-22" ∧
    parse_date "2025-11-22" = some "2025-11-22" ∧
    parse_date "N/A" = none ∧
    parse_date "" = none ∧
    ∀ s : String, dateMatchesKnownFormat s = false → parse_date s = none := by
  refine ⟨by decide, by decide, by decide, by decide, by decide, ?_⟩
  intro s h
  rw [dateMatchesKnownFormat, Bool.or_eq_false_iff, Bool.or_eq_false_iff] at h
  obtain ⟨⟨h1, h2⟩, h3⟩ := h
  unfold parse_date
  by_cases hs : s = "" ∨ s = "N/A" ∨ s = "Not Available"
  · rw [if_pos hs]
  · rw [if_neg hs, h1, h2]
    simp only [Bool.false_eq_true, if_false]
    cases hx : tryDateFormats s.data with
    | none => rfl
    | some v => rw [hx] at h3; simp at h3

/-- Witness for claim C6: a concrete unparseable string is refused. -/
theorem claim_C6_witness : parse_date "next tuesday" = none :=
  claim_C6_parse_date_normalization.2.2.2.2.2 "next tuesday" (by decide)

/-- Claim C2: `MetadataExtractor.extract` always returns a mapping and
never lets an exception escape. An unsupported extension yields the
unsupported-format error mapping whatever the branch extractors would
have done (no extraction is attempted), and a branch extractor that
raises has its message converted to an error mapping at the boundary. -/
theorem claim_C2_extract_error_boundary (path : String)
    (dicomRes imageRes pdfRes : Except String Val)
    (hd : ∀ v, dicomRes = .ok v → v.isObj = true)
    (hi : ∀ v, imageRes = .ok v → v.isObj = true)
    (hp : ∀ v, pdfRes = .ok v → v.isObj = true) :
    ((metadata_extract path dicomRes imageRes pdfRes).isObj = true) ∧
    ((dicomExts.contains (lowerStr (splitextExtension path)) = false →
      imageExts.contains (lowerStr (splitextExtension path)) = false →
      lowerStr (splitextExtension path) ≠ ".pdf" →
      ∀ r1 r2 r3 : Except String Val,
        metadata_extract path r1 r2 r3 =
          .vObj [("error",
            .vStr ("Unsupported file format: " ++ lowerStr (splitextExtension path)))])) ∧
    (∀ e : String,
      (dicomExts.contains (lowerStr (splitextExtension path)) = true ∨
       imageExts.contains (lowerStr (splitextExtension path)) = true ∨
       lowerStr (splitextExtension path) = ".pdf") →
      metadata_extract path (.error e) (.error e) (.error e) =
        .vObj [("error", .vStr ("Extraction failed: " ++ e))]) := by
  refine ⟨?_, ?_, ?_⟩
  · unfold metadata_extract
    by_cases h1 : dicomExts.contains (lowerStr (splitextExtension path)) = true
    · simp only [h1, if_true]
      cases hx : dicomRes with
      | ok v => exact hd v hx
      | error e => rfl
    · simp only [Bool.not_eq_true] at h1
      simp only [h1, Bool.false_eq_true, if_false]
      by_cases h2 : imageExts.contains (lowerStr (splitextExtension path)) = true
      · simp only [h2, if_true]
        cases hx : imageRes with
        | ok v => exact hi v hx
        | error e => rfl
      · simp only [Bool.not_eq_true] at h2
        simp only [h2, Bool.false_eq_true, if_false]
        by_cases h3 : lowerStr (splitextExtension path) = ".pdf"
        · simp only [h3, if_pos rfl]
          cases hx : pdfRes with
          | ok v => exact hp v hx
          | error e => rfl
        · simp only [if_neg h3]; rfl
  · intro h1 h2 h3 r1 r2 r3
    unfold metadata_extract
    simp only [h1, h2, Bool.false_eq_true, if_false, if_neg h3]
  · intro e h
    unfold metadata_extract
    rcases h with h1 | h1 | h1
    · simp only [h1, if_true]
    · by_cases h0 : dicomExts.contains (lowerStr (splitextExtension path)) = true
      · simp only [h0, if_true]
      · simp only [Bool.not_eq_true] at h0
        simp only [h0, Bool.false_eq_true, if_false, h1, if_true]
    · by_cases h0 : dicomExts.contains (lowerStr (splitextExtension path)) = true
      · simp only [h0, if_true]
      · simp only [Bool.not_eq_true] at h0
        by_cases h2 : imageExts.contains (lowerStr (splitextExtension path)) = true
        · simp only [h0, Bool.false_eq_true, if_false, h2, if_true]
        · simp only [Bool.not_eq_true] at h2
          simp only [h0, h2, Bool.false_eq_true, if_false, if_pos h1]

/-- Witness for claim C2: a path with an unsupported extension is refused
without consulting any extractor, and a raising DICOM read is converted. -/
theorem claim_C2_witness :
    metadata_extract "scan.xyz" (.ok emptyObj) (.ok emptyObj) (.ok emptyObj) =
      .vObj [("error", .vStr "Unsupported file format: .xyz")] ∧
    metadata_extract "scan.dcm" (.error "bad header") (.error "bad header")
        (.error "bad header") =
      .vObj [("error", .vStr "Extraction failed: bad header")] := by
  constructor
  · exact (claim_C2_extract_error_boundary "scan.xyz" (.ok emptyObj) (.ok emptyObj)
      (.ok emptyObj) (fun v hv => by cases hv; rfl) (fun v hv => by cases hv; rfl)
      (fun v hv => by cases hv; rfl)).2.1 (by decide) (by decide) (by decide)
      (.ok emptyObj) (.ok emptyObj) (.ok emptyObj)
  · exact (claim_C2_extract_error_boundary "scan.dcm" (.error "bad header")
      (.error "bad header") (.error "bad header") (fun v hv => by cases hv)
      (fun v hv => by cases hv) (fun v hv => by cases hv)).2.2 "bad header"
      (Or.inl (by decide))

/-- A 100-character text with no recognizable field in it (dots trigger
no pattern), long enough for the PDF text route. -/
def dotText : String := String.mk (List.replicate 100 '.')

/-- Claim C1 is false as stated: on the PDF text route, a record that is
not an error mapping can carry an empty `patient_information` section —
`patient_id` is absent rather than the "UNKNOWN" sentinel, although the
producer recovered no identity. -/
theorem claim_C1_counterexample :
    (pdf_extract emptyObj true 100 true dotText [] "t").hasKey "error" = false ∧
    (pdf_extract emptyObj true 100 true dotText [] "t").get "patient_information" =
      some emptyObj ∧
    (sectionField (pdf_extract emptyObj true 100 true dotText [] "t")
      "patient_information" "patient_id").isNone = true := by
  refine ⟨by decide, by rfl, by decide⟩

/-- Claim C1 (amended): every producer path puts the `file_info`,
`patient_information` and `processing_info` sections on its non-error
records, and on the image-OCR producer paths — the normalized shape and
the fallback shape — missing identity defaults to `patient_id` "UNKNOWN"
and `patient_name` "Unknown"; the DICOM path instead defaults identity
fields to "N/A", and the PDF routes leave unrecovered identity fields
absent (shown by the counterexample). -/
theorem claim_C1_sections_and_identity_defaults :
    (∀ (filename : String) (sz : Rat) (now : String) (ds : DicomTags) (tags : Val),
      hasSections (extract_dicom filename sz now ds tags) = true ∧
      (ds.patientID = none →
        sectionField (extract_dicom filename sz now ds tags)
          "patient_information" "patient_id" = some (.vStr "N/A"))) ∧
    (∀ (ocrResult fi ip : Val) (now : String),
      hasSections (extract_medical_image ocrResult fi ip now) = true) ∧
    (∀ (now : String) (r : Val),
      ((r.getD "patient_info" emptyObj).get "patient_id" = none →
        sectionField (normalize_ocr_result now r) "patient_information" "patient_id" =
          some (.vStr "UNKNOWN")) ∧
      ((r.getD "patient_info" emptyObj).get "patient_name" = none →
        sectionField (normalize_ocr_result now r) "patient_information" "patient_name" =
          some (.vStr "Unknown"))) ∧
    (∀ (fi ip : Val) (now rawText : String),
      hasSections (fallback_with_context fi ip now rawText) = true ∧
      sectionField (fallback_with_context fi ip now rawText)
        "patient_information" "patient_id" = some (.vStr "UNKNOWN") ∧
      sectionField (fallback_with_context fi ip now rawText)
        "patient_information" "patient_name" = some (.vStr "Unknown")) ∧
    (∀ (fi : Val) (text : String) (pages : List Val) (now : String),
      hasSections (pdf_extract fi true 100 true text pages now) = true) := by
  refine ⟨?_, ?_, ?_, ?_, ?_⟩
  · intro filename sz now ds tags
    refine ⟨rfl, ?_⟩
    intro h
    show some (Val.vStr (ds.patientID.getD "N/A")) = some (.vStr "N/A")
    rw [h]
    rfl
  · intro ocrResult fi ip now
    unfold extract_medical_image
    split <;> rfl
  · intro now r
    constructor <;> intro h
    · show some (((r.getD "patient_info" emptyObj).get "patient_id").getD
        (.vStr "UNKNOWN")) = some (.vStr "UNKNOWN")
      rw [h]
      rfl
    · show some (((r.getD "patient_info" emptyObj).get "patient_name").getD
        (.vStr "Unknown")) = some (.vStr "Unknown")
      rw [h]
      rfl
  · intro fi ip now rawText
    exact ⟨rfl, rfl, rfl⟩
  · intro fi text pages now
    unfold pdf_extract
    split
    · unfold pdf_extract_via_ocr
      rw [if_pos rfl]
      rfl
    · rfl

/-- Witness for claim C1: the amended defaults evaluated at concrete
inputs (an OCR result with no identity, and a DICOM dataset with no
PatientID tag). -/
theorem claim_C1_witness :
    sectionField (normalize_ocr_result "t" emptyObj) "patient_information" "patient_id" =
      some (.vStr "UNKNOWN") ∧
    sectionField
      (extract_dicom "f.dcm" 1 "t"
        ⟨none, none, none, none, none, none, none, none, none, none, none, none⟩ emptyObj)
      "patient_information" "patient_id" = some (.vStr "N/A") :=
  ⟨(claim_C1_sections_and_identity_defaults.2.2.1 "t" emptyObj).1 rfl,
   (claim_C1_sections_and_identity_defaults.1 "f.dcm" 1 "t"
     ⟨none, none, none, none, none, none, none, none, none, none, none, none⟩ emptyObj).2 rfl⟩

/-- Claim C3 is false as stated: a record in the canonical shape (here,
an output of the normalizer itself, whose patient id is "OPD1234567") is
changed by a second normalization — the producer-native keys are absent,
so every identity field is reset to its sentinel. -/
theorem claim_C3_counterexample :
    isCanonicalShape (normalize_ocr_result "t0"
      (.vObj [("patient_info", .vObj [("patient_id", .vStr "OPD1234567")])])) = true ∧
    ¬(normalize_ocr_result "t0"
        (normalize_ocr_result "t0"
          (.vObj [("patient_info", .vObj [("patient_id", .vStr "OPD1234567")])])) =
      normalize_ocr_result "t0"
        (.vObj [("patient_info", .vObj [("patient_id", .vStr "OPD1234567")])])) := by
  refine ⟨by rfl, ?_⟩
  intro h
  have h2 := congrArg (fun r => sectionField r "patient_information" "patient_id") h
  have e1 : sectionField
      (normalize_ocr_result "t0"
        (normalize_ocr_result "t0"
          (.vObj [("patient_info", .vObj [("patient_id", .vStr "OPD1234567")])])))
      "patient_information" "patient_id" = some (.vStr "UNKNOWN") := rfl
  have e2 : sectionField
      (normalize_ocr_result "t0"
        (.vObj [("patient_info", .vObj [("patient_id", .vStr "OPD1234567")])]))
      "patient_information" "patient_id" = some (.vStr "OPD1234567") := rfl
  simp only [e1, e2] at h2
  injection h2 with h3
  injection h3 with h4
  exact absurd h4 (by decide)

/-- Claim C3 (amended): re-normalizing a normalizer output (a canonical
record) is not the identity — it resets the identity fields to the
"UNKNOWN"/"Unknown" sentinels whatever they were, embeds the first
record under `ocr_raw_result`, and preserves only `file_info` and
`raw_text`. -/
theorem claim_C3_renormalization_resets (now now2 : String) (r : Val) :
    sectionField (normalize_ocr_result now2 (normalize_ocr_result now r))
      "patient_information" "patient_id" = some (.vStr "UNKNOWN") ∧
    sectionField (normalize_ocr_result now2 (normalize_ocr_result now r))
      "patient_information" "patient_name" = some (.vStr "Unknown") ∧
    (normalize_ocr_result now2 (normalize_ocr_result now r)).get "file_info" =
      (normalize_ocr_result now r).get "file_info" ∧
    (normalize_ocr_result now2 (normalize_ocr_result now r)).get "raw_text" =
      (normalize_ocr_result now r).get "raw_text" ∧
    (normalize_ocr_result now2 (normalize_ocr_result now r)).get "ocr_raw_result" =
      some (normalize_ocr_result now r) :=
  ⟨rfl, rfl, rfl, rfl, rfl⟩

/-- Claim C4 is false as stated: on the PDF path the stored unit is the
matched slice with its original case, not its lowercase form — a text of
three tokens written "MM" yields entries whose unit is "MM". -/
theorem claim_C4_counterexample :
    (scanMeas pdfUnits "10 MM 11 MM 12 MM").length = 3 ∧
    sectionField (pdf_extract_measurements "10 MM 11 MM 12 MM")
      "measurement_1" "unit" = some (.vStr "MM") ∧
    lowerStr "MM" = "mm" ∧ ("MM" : String) ≠ "mm" := by
  refine ⟨by decide, by rfl, by decide, by decide⟩

/-- Claim C4 (amended): a text on which the measurement pattern finds
exactly three matches yields exactly the entries `measurement_1`,
`measurement_2`, `measurement_3` in document order with the matched
numeric values; the image-OCR path lowercases the matched unit while the
PDF path stores it as matched. -/
theorem claim_C4_three_measurements (t : String) (a b c : RawMeas) :
    (scanMeas ocrUnits t = [a, b, c] →
      ocrMeasEntries t =
        [("measurement_1", .vObj [("value", .vRat (parseDecimalRat a.num)),
                                  ("unit", .vStr (lowerStr a.unitText))]),
         ("measurement_2", .vObj [("value", .vRat (parseDecimalRat b.num)),
                                  ("unit", .vStr (lowerStr b.unitText))]),
         ("measurement_3", .vObj [("value", .vRat (parseDecimalRat c.num)),
                                  ("unit", .vStr (lowerStr c.unitText))])]) ∧
    (scanMeas pdfUnits t = [a, b, c] →
      pdfMeasEntries t =
        [("measurement_1", .vObj [("value", .vRat (parseDecimalRat a.num)),
                                  ("unit", .vStr a.unitText)]),
         ("measurement_2", .vObj [("value", .vRat (parseDecimalRat b.num)),
                                  ("unit", .vStr b.unitText)]),
         ("measurement_3", .vObj [("value", .vRat (parseDecimalRat c.num)),
                                  ("unit", .vStr c.unitText)])]) := by
  constructor
  · intro h
    unfold ocrMeasEntries
    rw [h]
    simp only [List.enum, List.enumFrom, List.map]
    rfl
  · intro h
    unfold pdfMeasEntries
    rw [h]
    simp only [List.enum, List.enumFrom, List.map]
    rfl

/-- Witness for claim C4: a concrete three-token text on both paths. -/
theorem claim_C4_witness :
    ocrMeasEntries "Aorta 3.5 cm lesion 12mm density 45 HU" =
      [("measurement_1", .vObj [("value", .vRat (parseDecimalRat "3.5")),
                                ("unit", .vStr "cm")]),
       ("measurement_2", .vObj [("value", .vRat (parseDecimalRat "12")),
                                ("unit", .vStr "mm")]),
       ("measurement_3", .vObj [("value", .vRat (parseDecimalRat "45")),
                                ("unit", .vStr "hu")])] ∧
    pdfMeasEntries "Aorta 3.5 cm lesion 12mm density 45 HU" =
      [("measurement_1", .vObj [("value", .vRat (parseDecimalRat "3.5")),
                                ("unit", .vStr "cm")]),
       ("measurement_2", .vObj [("value", .vRat (parseDecimalRat "12")),
                                ("unit", .vStr "mm")]),
       ("measurement_3", .vObj [("value", .vRat (parseDecimalRat "45")),
                                ("unit", .vStr "HU")])] :=
  ⟨(claim_C4_three_measurements "Aorta 3.5 cm lesion 12mm density 45 HU"
      ⟨"3.5", "cm"⟩ ⟨"12", "mm"⟩ ⟨"45", "HU"⟩).1 (by decide),
   (claim_C4_three_measurements "Aorta 3.5 cm lesion 12mm density 45 HU"
      ⟨"3.5", "cm"⟩ ⟨"12", "mm"⟩ ⟨"45", "HU"⟩).2 (by decide)⟩

/-- Claim C5: a PDF whose stripped embedded text is below the 100
character threshold routes through per-page OCR — `raw_text` is the
bannered concatenation of every page text while the structured sections
come from the first page result only — and a PDF at or above the
threshold runs the field parsers directly on the embedded text, the
result not depending on any OCR page. -/
theorem claim_C5_pdf_routing (fi : Val) (text : String) (pages : List Val) (now : String) :
    ((pyStrip text).length < 100 →
      pdf_extract fi true 100 true text pages now = pdf_extract_via_ocr fi true pages now ∧
      (pdf_extract fi true 100 true text pages now).get "raw_text" =
        some (.vStr (combinedPageText pages)) ∧
      (pdf_extract fi true 100 true text pages now).get "patient_information" =
        some ((pages.headD emptyObj).getD "patient_info" emptyObj) ∧
      (pdf_extract fi true 100 true text pages now).get "study_information" =
        some ((pages.headD emptyObj).getD "report_info" emptyObj) ∧
      (pdf_extract fi true 100 true text pages now).get "clinical_information" =
        some ((pages.headD emptyObj).getD "clinical_data" emptyObj) ∧
      (pdf_extract fi true 100 true text pages now).get "measurements" =
        some ((pages.headD emptyObj).getD "measurements" emptyObj)) ∧
    (100 ≤ (pyStrip text).length →
      pdf_extract fi true 100 true text pages now =
        .vObj [("file_info", fi),
               ("patient_information", pdf_extract_patient_info text),
               ("study_information", pdf_extract_report_info text),
               ("clinical_information", pdf_extract_clinical_data text),
               ("measurements", pdf_extract_measurements text),
               ("raw_text", .vStr text),
               ("extraction_method", .vStr "text"),
               ("processing_info", .vObj [("extracted_at", .vStr now)])]) := by
  constructor
  · intro h
    have hroute : pdf_extract fi true 100 true text pages now =
        pdf_extract_via_ocr fi true pages now := by
      unfold pdf_extract
      rw [if_pos ⟨h, rfl⟩]
    refine ⟨hroute, ?_, ?_, ?_, ?_, ?_⟩ <;> rw [hroute] <;> rfl
  · intro h
    unfold pdf_extract
    rw [if_neg (fun hc => absurd hc.1 (not_lt.mpr h))]

/-- Witness for claim C5: an empty embedded text routes to OCR and takes
the structured fields from the (single) first page, while a 120
character embedded text takes the text route. -/
theorem claim_C5_witness :
    (pdf_extract emptyObj true 100 true ""
        [.vObj [("raw_text", .vStr "hello"),
                ("patient_info", .vObj [("patient_name", .vStr "JOHN DOE")])]] "t").get
      "patient_information" = some (.vObj [("patient_name", .vStr "JOHN DOE")]) ∧
    (pdf_extract emptyObj true 100 true (String.mk (List.replicate 120 'a')) [] "t").get
      "extraction_method" = some (.vStr "text") := by
  constructor
  · rw [((claim_C5_pdf_routing emptyObj ""
      [.vObj [("raw_text", .vStr "hello"),
              ("patient_info", .vObj [("patient_name", .vStr "JOHN DOE")])]] "t").1
      (by decide)).2.2.1]
    rfl
  · rw [(claim_C5_pdf_routing emptyObj (String.mk (List.replicate 120 'a')) [] "t").2
      (by decide)]
    rfl

/-- `maxByLen` yields either the accumulator or a list element. -/
theorem maxByLen_mem (acc : String) (l : List String) :
    maxByLen acc l = acc ∨ maxByLen acc l ∈ l := by
  induction l generalizing acc with
  | nil => exact Or.inl rfl
  | cons s rest ih =>
      rw [maxByLen]
      rcases ih (if s.length > acc.length then s else acc) with h | h
      · rw [h]
        split
        · exact Or.inr (List.mem_cons_self _ _)
        · exact Or.inl rfl
      · exact Or.inr (List.mem_cons_of_mem _ h)

/-- `maxByLen` is at least as long as the accumulator and every element. -/
theorem maxByLen_ge (acc : String) (l : List String) :
    acc.length ≤ (maxByLen acc l).length ∧
    ∀ s ∈ l, s.length ≤ (maxByLen acc l).length := by
  induction l generalizing acc with
  | nil => exact ⟨le_refl _, fun s hs => absurd hs (List.not_mem_nil s)⟩
  | cons s rest ih =>
      rw [maxByLen]
      obtain ⟨h1, h2⟩ := ih (if s.length > acc.length then s else acc)
      refine ⟨le_trans ?_ h1, ?_⟩
      · split
        · next hgt => exact le_of_lt hgt
        · exact le_refl _
      · intro x hx
        rcases List.mem_cons.mp hx with rfl | hx2
        · refine le_trans ?_ h1
          split
          · exact le_refl _
          · next hng => exact Nat.le_of_not_lt hng
        · exact h2 x hx2

/-- Claim C7 as stated: always a string; with any strategy output the
longest non-empty candidate is returned; with every strategy failing the
engine degrades to the direct attempt; and the empty string comes back
only when the strategies and the direct attempt all failed. -/
def runOcrClaim : Prop :=
  ∀ m1 m2 m3 d1 d2 : Option String,
    ((∃ s, s ∈ strategyResults m1 m2 m3 ∧ s ≠ "") →
      run_ocr m1 m2 m3 d1 d2 ∈ strategyResults m1 m2 m3 ∧
      run_ocr m1 m2 m3 d1 d2 ≠ "" ∧
      ∀ s ∈ strategyResults m1 m2 m3, s.length ≤ (run_ocr m1 m2 m3 d1 d2).length) ∧
    (strategyResults m1 m2 m3 = [] →
      run_ocr m1 m2 m3 d1 d2 =
        (match d1 with
         | some t => t
         | none => d2.getD "")) ∧
    (run_ocr m1 m2 m3 d1 d2 = "" →
      strategyResults m1 m2 m3 = [] ∧ d1 = none ∧ d2 = none)

/-- Claim C7 is false as stated: when every strategy succeeds but
returns the empty string, `results` is non-empty, `max` picks the empty
string, and the engine returns "" without any direct attempt — although
the direct attempt (here an oracle that would return "hi") did not fail. -/
theorem claim_C7_counterexample : ¬runOcrClaim := by
  intro h
  have h3 := (h (some "") (some "") (some "") (some "hi") (some "hi")).2.2 rfl
  exact absurd h3.2.1 (by simp)

/-- Claim C7 (amended): whenever the strategy list is non-empty the
result is one of its elements of maximal length — non-empty as soon as
any strategy output is non-empty — and only when every strategy raised
does the engine degrade to the direct attempt, retried once before the
empty string; however, strategies that all succeed with empty output
yield "" without a direct attempt. -/
theorem claim_C7_run_ocr (m1 m2 m3 d1 d2 : Option String) :
    ((∃ s, s ∈ strategyResults m1 m2 m3 ∧ s ≠ "") →
      run_ocr m1 m2 m3 d1 d2 ∈ strategyResults m1 m2 m3 ∧
      run_ocr m1 m2 m3 d1 d2 ≠ "" ∧
      ∀ s ∈ strategyResults m1 m2 m3, s.length ≤ (run_ocr m1 m2 m3 d1 d2).length) ∧
    (strategyResults m1 m2 m3 ≠ [] →
      run_ocr m1 m2 m3 d1 d2 ∈ strategyResults m1 m2 m3 ∧
      ∀ s ∈ strategyResults m1 m2 m3, s.length ≤ (run_ocr m1 m2 m3 d1 d2).length) ∧
    (strategyResults m1 m2 m3 = [] →
      run_ocr m1 m2 m3 d1 d2 =
        (match d1 with
         | some t => t
         | none => d2.getD "")) := by
  cases hr : strategyResults m1 m2 m3 with
  | nil =>
      refine ⟨?_, ?_, ?_⟩
      · rintro ⟨s, hs, _⟩
        exact absurd hs (List.not_mem_nil s)
      · intro hne
        exact absurd rfl hne
      · intro _
        unfold run_ocr
        rw [hr]
        cases d1 with
        | some t => rfl
        | none => cases d2 <;> rfl
  | cons r rs =>
      have hrun : run_ocr m1 m2 m3 d1 d2 = maxByLen r rs := by
        unfold run_ocr
        rw [hr]
      have hmem : maxByLen r rs ∈ r :: rs := by
        rcases maxByLen_mem r rs with h | h
        · rw [h]; exact List.mem_cons_self _ _
        · exact List.mem_cons_of_mem _ h
      have hge : ∀ s ∈ r :: rs, s.length ≤ (maxByLen r rs).length := by
        intro s hs
        rcases List.mem_cons.mp hs with rfl | hs2
        · exact (maxByLen_ge s rs).1
        · exact (maxByLen_ge r rs).2 s hs2
      refine ⟨?_, ?_, ?_⟩
      · rintro ⟨s, hs, hne⟩
        refine ⟨by rw [hrun]; exact hmem, ?_, by rw [hrun]; exact hge⟩
        intro hempty
        have hslen : 1 ≤ s.length := by
          cases s with
          | mk data =>
              cases data with
              | nil => exact absurd rfl hne
              | cons c cs => exact Nat.succ_le_succ (Nat.zero_le _)
        have hthis := hge s hs
        rw [← hrun, hempty] at hthis
        exact absurd (le_trans hslen hthis) (by decide)
      · intro _
        exact ⟨by rw [hrun]; exact hmem, by rw [hrun]; exact hge⟩
      · intro hnil
        exact absurd hnil (by simp)

/-- Witness for claim C7: a single successful strategy wins. -/
theorem claim_C7_witness :
    run_ocr (some "abc") none none none none ∈ strategyResults (some "abc") none none ∧
    run_ocr (some "abc") none none none none ≠ "" ∧
    ∀ s ∈ strategyResults (some "abc") none none,
      s.length ≤ (run_ocr (some "abc") none none none none).length :=
  (claim_C7_run_ocr (some "abc") none none none none).1
    ⟨"abc", by simp [strategyResults, Option.toList], by decide⟩

/-- Claim C8 as stated: any text containing the 1-for-I rendering
"Patient 1D: OPD1234567" yields patient id "OPD1234567". -/
def pidSubstitutionClaim : Prop :=
  ∀ t : String, containsSub "Patient 1D: OPD1234567".data t.data = true →
    ocrExtractPatientId t = some "OPD1234567"

set_option maxRecDepth 4000 in
/-- Claim C8 is false as stated: the first pattern of the list matches a
`0PD`-labelled numeric id anywhere in the text before the later patterns
are tried, so a text that also contains "Patient ID: 0PD99999999"
returns "OPD99999999" although it contains the 1-for-I rendering. -/
theorem claim_C8_counterexample : ¬pidSubstitutionClaim := by
  intro h
  have h2 := h "Patient ID: 0PD99999999 Patient 1D: OPD1234567" (by decide)
  rw [show ocrExtractPatientId "Patient ID: 0PD99999999 Patient 1D: OPD1234567" =
      some "OPD99999999" from rfl] at h2
  exact absurd h2 (by decide)

/-- Claim C8 (amended): the identity parser recovers "OPD1234567" from
the 1-for-I rendering "Patient 1D: OPD1234567" — alone or surrounded by
report text — provided no other patient-id label occurs that an earlier
pattern of the list matches. -/
theorem claim_C8_substituted_pid :
    ocrExtractPatientId "Patient 1D: OPD1234567" = some "OPD1234567" ∧
    ocrExtractPatientId "Name: JOHN DOE\nPatient 1D: OPD1234567\nAge: 44" =
      some "OPD1234567" :=
  ⟨rfl, rfl⟩

/-- Claim C9 as stated: no execution of the per-page OCR loop leaves a
temporary raster file on disk. -/
def tempCleanupClaim : Prop :=
  ∀ steps : List PageStep, (runPdfOcrLoop steps).2 = 0

/-- Claim C9 is false as stated: `os.remove` is not in a `finally`
block, so a page whose `image.save` raises exits the call with the
already-created temporary file still on disk. -/
theorem claim_C9_counterexample : ¬tempCleanupClaim := by
  intro h
  exact absurd (h [⟨false⟩]) (by decide)

/-- Claim C9 (amended): when every per-page save succeeds the loop
completes and deletes every temporary raster file; an exception raised
between a temp file creation and its inline removal leaks that file. -/
theorem claim_C9_cleanup_on_success (steps : List PageStep)
    (h : ∀ p ∈ steps, p.saveOk = true) : runPdfOcrLoop steps = (true, 0) := by
  induction steps with
  | nil => rfl
  | cons p rest ih =>
      have hp := h p (List.mem_cons_self p rest)
      simp only [runPdfOcrLoop, hp, if_true]
      exact ih (fun q hq => h q (List.mem_cons_of_mem p hq))

/-- Witness for claim C9: a two-page run with successful saves. -/
theorem claim_C9_witness : runPdfOcrLoop [⟨true⟩, ⟨true⟩] = (true, 0) :=
  claim_C9_cleanup_on_success [⟨true⟩, ⟨true⟩] (by decide)

/-- Claim C10: whichever label variant matched (OPD-style, generic,
UHID, or Reg. No.), a purely numeric id (after removing underscores)
longer than six characters is returned with "OPD" prepended, and one of
six or fewer characters is returned verbatim. -/
theorem claim_C10_numeric_pid (t raw : String)
    (h : firstPidRaw t = some raw)
    (hd : pyIsDigitStr (pyStrip (stripUnderscores raw)) = true) :
    (6 < (pyStrip (stripUnderscores raw)).length →
      ocrExtractPatientId t = some ("OPD" ++ pyStrip (stripUnderscores raw))) ∧
    ((pyStrip (stripUnderscores raw)).length ≤ 6 →
      ocrExtractPatientId t = some (pyStrip (stripUnderscores raw))) := by
  constructor
  · intro hl
    unfold ocrExtractPatientId
    rw [h]
    show some (pidPostprocess raw) = _
    unfold pidPostprocess
    rw [if_pos ⟨hd, hl⟩]
  · intro hl
    unfold ocrExtractPatientId
    rw [h]
    show some (pidPostprocess raw) = _
    unfold pidPostprocess
    rw [if_neg (fun hc => absurd hc.2 (not_lt.mpr hl))]

/-- Witness for claim C10: a UHID-labelled seven-digit id gains the OPD
prefix; a Reg. No.-labelled six-digit id is returned verbatim. -/
theorem claim_C10_witness :
    ocrExtractPatientId "UHID: 1234567" = some "OPD1234567" ∧
    ocrExtractPatientId "Reg. No: 123456" = some "123456" := by
  constructor
  · have h := (claim_C10_numeric_pid "UHID: 1234567" "1234567" rfl (by decide)).1
      (by decide)
    rw [h]
    rfl
  · have h := (claim_C10_numeric_pid "Reg. No: 123456" "123456" rfl (by decide)).2
      (by decide)
    rw [h]
    rfl

end SnehMed
